import Mathlib

/-!
Shallow embedding of the middleware layer in `src/middleware/core.py`
(organization/tenant resolution, authentication, rate limiting, idempotency,
correlation, locale/timezone detection, audit logging, error normalization,
and the `RequestProcessor.process_request` pipeline), together with theorems
settling the specification claims about it.

Modelling conventions:
- Python `dict` values are association lists with first-match lookup; updates
  replace in place, fresh keys append (insertion order), mirroring CPython.
- `time.time()` values are integer timestamps passed explicitly to each
  operation (every claim scenario is about whole seconds, and the window
  theorems quantify over all integer times).
- `uuid.uuid4()` outputs are parameters (`gen_id`); the nondeterministic
  `error_id` / `timestamp` fields of a normalized error are omitted.
- The external `auth_service.validate_token` is a function parameter.
- A Python exception escaping `process_request` uncaught is `Except.error`.
-/

deriving instance DecidableEq for Except

namespace Assiwel

/-- Lookup in a Python dict modelled as an association list (`d.get(k)`):
first matching key wins (keys are unique in a real dict). -/
def dictGet {α : Type} : List (String × α) → String → Option α
  | [], _ => none
  | p :: tl, k => if p.1 == k then some p.2 else dictGet tl k

/-- Update of a Python dict modelled as an association list (`d[k] = v`):
replace the existing key in place, else append at the end, mirroring
CPython's insertion-order semantics. -/
def dictSet {α : Type} : List (String × α) → String → α → List (String × α)
  | [], k, v => [(k, v)]
  | p :: tl, k, v => if p.1 == k then (k, v) :: tl else p :: dictSet tl k v

/-- Request headers: a string-keyed Python dict. -/
abbrev Headers := List (String × String)

/-- Truthiness of an optional Python string (`if not x`): `None` and the
empty string are falsy. -/
def truthy : Option String → Bool
  | none => false
  | some s => s != ""

/-- Python f-string rendering of an optional string: `None` prints as
the string "None". -/
def pyStr : Option String → String
  | none => "None"
  | some s => s

/-- Embeds `OrganizationTenantMiddleware._default_org_resolver`:
`headers.get('X-Organization-ID') or headers.get('X-Tenant-ID')`.
Python `or` yields the second operand whenever the first is falsy. -/
def default_org_resolver (h : Headers) : Option String :=
  let a := dictGet h "X-Organization-ID"
  if truthy a then a else dictGet h "X-Tenant-ID"

/-- Token payload returned by `auth_service.validate_token`: a dict read via
`payload.get("user_id")` and `payload.get("roles", [])`. A falsy (empty)
payload dict is identified with `none`, matching the `if not token_payload`
check in `authenticate_request`. -/
structure AuthPayload where
  user_id : Option String
  roles : List String
deriving DecidableEq

/-- Embeds `AuthenticationMiddleware.authenticate_request`: requires an
`Authorization` header whose first seven characters are the string Bearer
plus a space (Python `startswith('Bearer ')`), strips that prefix, and
delegates to `validate_token`; any failure returns `none`. -/
def authenticate_request (validate_token : String → Option AuthPayload)
    (h : Headers) : Option AuthPayload :=
  let auth_header := (dictGet h "Authorization").getD ""
  if auth_header == "" then none
  else if !(auth_header.take 7 == "Bearer ") then none
  else validate_token (auth_header.drop 7)

/-- Embeds the state of `RateLimitingMiddleware`: configuration plus the
`request_counts` dict mapping a client id to `(count, timestamp)`. -/
structure RateLimiter where
  max_requests : Nat
  window_seconds : ℤ
  request_counts : List (String × Nat × ℤ)
deriving DecidableEq

/-- Embeds `RateLimitingMiddleware.is_rate_limited`: cleans up entries whose
timestamp left the window, then checks/updates the calling client's entry.
Returns the boolean outcome together with the mutated state. -/
def is_rate_limited (rl : RateLimiter) (client_id : String) (now : ℤ) :
    Bool × RateLimiter :=
  let window_start := now - rl.window_seconds
  let counts := rl.request_counts.filter (fun p => window_start < p.2.2)
  match dictGet counts client_id with
  | some (count, timestamp) =>
    if now - timestamp < rl.window_seconds then
      if rl.max_requests ≤ count then
        (true, { rl with request_counts := counts })
      else
        (false,
         { rl with request_counts := dictSet counts client_id (count + 1, now) })
    else
      (false, { rl with request_counts := dictSet counts client_id (1, now) })
  | none =>
    (false, { rl with request_counts := dictSet counts client_id (1, now) })

/-- Embeds `IdempotencyMiddleware.check_idempotency`: dict lookup. -/
def check_idempotency {α : Type} (store : List (String × α)) (key : String) :
    Option α :=
  dictGet store key

/-- Embeds `IdempotencyMiddleware.store_result`:
`self.idempotency_store[idempotency_key] = result`, an unconditional dict
assignment. -/
def store_result {α : Type} (store : List (String × α)) (key : String)
    (result : α) : List (String × α) :=
  dictSet store key result

/-- Embeds `LocaleTimezoneMiddleware.detect_locale`:
`headers.get('Accept-Language', 'en-US')`. The default applies only when the
key is absent; a present value is returned unchanged, even if empty. -/
def detect_locale (h : Headers) : String :=
  (dictGet h "Accept-Language").getD "en-US"

/-- Embeds `LocaleTimezoneMiddleware.detect_timezone`:
`headers.get('X-Timezone', 'UTC')`. -/
def detect_timezone (h : Headers) : String :=
  (dictGet h "X-Timezone").getD "UTC"

/-- Embeds the audit entry dict appended by
`AuditLoggingMiddleware.log_request`. -/
structure AuditEntry where
  timestamp : ℤ
  correlation_id : Option String
  user_id : Option String
  org_id : Option String
  action : Option String
  endpoint : Option String
  method : Option String
  ip_address : Option String
  user_agent : Option String
  request_size : Nat
  status_code : Nat
deriving DecidableEq

/-- The `request_data` dict handed to `log_request`; fields read with
`.get(...)`, so an absent key is `none`. The body is carried as its JSON
serialization. -/
structure RequestData where
  correlation_id : Option String
  endpoint : Option String
  method : Option String
  ip_address : Option String
  user_agent : Option String
  body : Option String
  status_code : Option Nat
deriving DecidableEq

/-- Length of `json.dumps(request_data.get("body", \x7b\x7d))`: an absent body
serializes to the two-character empty-object literal. -/
def json_dumps_len : Option String → Nat
  | some s => s.length
  | none => 2

/-- Embeds `AuditLoggingMiddleware.log_request`: appends one entry built from
`request_data` and the keyword arguments to the audit log. -/
def log_request (log : List AuditEntry) (now : ℤ) (rd : RequestData)
    (user_id org_id action : Option String) : List AuditEntry :=
  log ++ [{ timestamp := now
            correlation_id := rd.correlation_id
            user_id := user_id
            org_id := org_id
            action := action
            endpoint := rd.endpoint
            method := rd.method
            ip_address := rd.ip_address
            user_agent := rd.user_agent
            request_size := json_dumps_len rd.body
            status_code := rd.status_code.getD 200 }]

/-- Attributes relevant here that the `datetime` class (imported via
`from datetime import datetime`) actually provides. `timedelta` is a sibling
class of the `datetime` module, not an attribute of the `datetime` class, so
it is absent. -/
def datetime_class_attrs : List String :=
  ["now", "today", "utcnow", "fromtimestamp", "fromordinal", "fromisoformat",
   "combine", "strptime", "min", "max", "resolution", "date", "time", "year",
   "month", "day", "isoformat"]

/-- Embeds `AuditLoggingMiddleware.get_audit_trail`. The first statement
evaluates `datetime.timedelta(days=days_back)`; since the imported `datetime`
class has no `timedelta` attribute, that attribute lookup raises
`AttributeError` before any filtering happens. The filter the code would
perform afterwards is kept on the unreachable branch. -/
def get_audit_trail (log : List AuditEntry) (now : ℤ)
    (user_id org_id : Option String) (days_back : Int) : Except String (List AuditEntry) :=
  if datetime_class_attrs.contains "timedelta" then
    let cutoff := now - (days_back : ℤ) * 86400
    Except.ok (log.filter (fun e =>
      decide (cutoff ≤ e.timestamp)
        && (!(truthy user_id) || e.user_id == user_id)
        && (!(truthy org_id) || e.org_id == org_id)))
  else
    Except.error "AttributeError: type object datetime has no attribute timedelta"

/-- Python exception values reaching
`GlobalErrorNormalizationMiddleware.normalize_error`, one constructor per
`isinstance` branch plus a catch-all carrying the dynamic type name. -/
inductive PyError where
  | middlewareException (msg : String)
  | valueError (msg : String)
  | permissionError (msg : String)
  | fileNotFoundError (msg : String)
  | other (type_name : String) (msg : String)
deriving DecidableEq

/-- Dynamic type name of an exception (`type(error).__name__`). -/
def PyError.type_name : PyError → String
  | .middlewareException _ => "MiddlewareException"
  | .valueError _ => "ValueError"
  | .permissionError _ => "PermissionError"
  | .fileNotFoundError _ => "FileNotFoundError"
  | .other n _ => n

/-- Message of an exception (`str(error)`). -/
def PyError.message : PyError → String
  | .middlewareException m => m
  | .valueError m => m
  | .permissionError m => m
  | .fileNotFoundError m => m
  | .other _ m => m

/-- Embeds the dict returned by `normalize_error`, minus the
nondeterministic `error_id` (a fresh uuid) and `timestamp` fields and the
redundant `details` echo of the message. -/
structure NormalizedError where
  type_name : String
  category : String
  message : String
  context : String
  status_code : Nat
deriving DecidableEq

/-- Embeds `GlobalErrorNormalizationMiddleware.normalize_error`: the
`isinstance` cascade assigning a category string and status code. -/
def normalize_error (e : PyError) (context : String) : NormalizedError :=
  let cs : String × Nat :=
    match e with
    | .middlewareException _ => ("middleware_error", 400)
    | .valueError _ => ("validation_error", 400)
    | .permissionError _ => ("authorization_error", 403)
    | .fileNotFoundError _ => ("resource_not_found", 404)
    | .other _ _ => ("system_error", 500)
  { type_name := e.type_name
    category := cs.1
    message := e.message
    context := context
    status_code := cs.2 }

/-- The raw request dict handed to `process_request`; fields read with
`raw_request.get(key, default)`, so an absent key is `none`. The body is
carried as its JSON serialization. -/
structure RawRequest where
  headers : Option Headers
  body : Option String
  method : Option String
  endpoint : Option String
  ip_address : Option String
  user_agent : Option String
deriving DecidableEq

/-- The enriched request context dict assembled at stage 6 of
`process_request` (and the value stored under an idempotency key). -/
structure EnrichedContext where
  correlation_id : String
  headers : Headers
  body : String
  method : String
  endpoint : String
  ip_address : String
  user_agent : String
  user_id : Option String
  org_id : String
  roles : List String
  locale : String
  timezone : String
  authenticated : Bool
deriving DecidableEq

/-- The three distinct dict shapes `process_request` can return: the success
dict, the failure dict, or — on an idempotency-cache hit — the bare stored
enriched-context dict itself (`return cached_result`). -/
inductive ProcResult where
  | success (context : EnrichedContext) (message : String)
  | failure (error : NormalizedError) (message : String)
  | rawContext (context : EnrichedContext)
deriving DecidableEq

/-- The process-wide mutable state owned by the `RequestProcessor`'s
middleware instances: rate-limit counters, idempotency store, audit log. -/
structure ProcState where
  rate : RateLimiter
  idem : List (String × EnrichedContext)
  audit : List AuditEntry
deriving DecidableEq

/-- Embeds `RequestProcessor.process_request`. `validate_token` is the
injected auth service, `now` the wall clock, `gen_id` the uuid the
correlation middleware would generate. Returns the result (or the uncaught
Python exception) together with the mutated shared state.

Stage order as in the source: correlation id, tenant resolution,
authentication, rate limiting, idempotency check (short-circuit), locale
and timezone, context enrichment, audit append, idempotency store. A raised
`MiddlewareException` lands in the `except` block, which normalizes it and
appends a failure audit entry — except when authentication failed: there the
local `auth_payload` is bound to `None`, so the handler's
`auth_payload.get("user_id")` raises `AttributeError` before `log_request`
runs, and that exception escapes `process_request` uncaught. -/
def process_request (validate_token : String → Option AuthPayload)
    (st : ProcState) (raw : RawRequest) (now : ℤ) (gen_id : String) :
    Except String ProcResult × ProcState :=
  let headers := raw.headers.getD []
  let hdr_corr := dictGet headers "X-Correlation-ID"
  let correlation_id := if truthy hdr_corr then hdr_corr.getD "" else gen_id
  let body := raw.body.getD "\x7b\x7d"
  let method := (raw.method).getD "GET"
  let endpoint := (raw.endpoint).getD ""
  let ip_address := (raw.ip_address).getD ""
  let user_agent := (raw.user_agent).getD ""
  let fail_action :=
    (raw.method).getD "UNKNOWN" ++ " " ++ (raw.endpoint).getD "UNKNOWN"
  let fail_data : RequestData :=
    { correlation_id := some correlation_id
      endpoint := some ((raw.endpoint).getD "")
      method := some ((raw.method).getD "")
      ip_address := some ((raw.ip_address).getD "")
      user_agent := some ((raw.user_agent).getD "")
      body := none
      status_code := none }
  let org_id := default_org_resolver headers
  if truthy org_id then
    match authenticate_request validate_token headers with
    | none =>
      -- The handler evaluates `auth_payload.get("user_id")` with
      -- `auth_payload = None`; the AttributeError escapes uncaught and no
      -- state is touched.
      (Except.error "AttributeError: NoneType object has no attribute get", st)
    | some payload =>
      let user_id := payload.user_id
      let roles := payload.roles
      let client_id := pyStr user_id ++ ":" ++ ip_address
      let rl := is_rate_limited st.rate client_id now
      if rl.1 then
        let err :=
          normalize_error (PyError.middlewareException "Rate limit exceeded")
            "Request Processing"
        let audit :=
          log_request st.audit now
            { fail_data with status_code := some err.status_code }
            user_id org_id (some fail_action)
        (Except.ok (ProcResult.failure err "Request failed middleware processing"),
         { st with rate := rl.2, audit := audit })
      else
        let idem_key := dictGet headers "Idempotency-Key"
        let cached :=
          if truthy idem_key then check_idempotency st.idem (idem_key.getD "")
          else none
        match cached with
        | some c =>
          (Except.ok (ProcResult.rawContext c), { st with rate := rl.2 })
        | none =>
          let locale := detect_locale headers
          let tz := detect_timezone headers
          let ctx : EnrichedContext :=
            { correlation_id := correlation_id
              headers := headers
              body := body
              method := method
              endpoint := endpoint
              ip_address := ip_address
              user_agent := user_agent
              user_id := user_id
              org_id := org_id.getD ""
              roles := roles
              locale := locale
              timezone := tz
              authenticated := true }
          let audit :=
            log_request st.audit now
              { correlation_id := some correlation_id
                endpoint := some endpoint
                method := some method
                ip_address := some ip_address
                user_agent := some user_agent
                body := some body
                status_code := some 200 }
              user_id org_id (some (method ++ " " ++ endpoint))
          let idem :=
            if truthy idem_key then store_result st.idem (idem_key.getD "") ctx
            else st.idem
          (Except.ok (ProcResult.success ctx
              "Request processed successfully through all middleware"),
           { rate := rl.2, idem := idem, audit := audit })
  else
    let err :=
      normalize_error (PyError.middlewareException "Organization ID is required")
        "Request Processing"
    let audit :=
      log_request st.audit now
        { fail_data with status_code := some err.status_code }
        none org_id (some fail_action)
    (Except.ok (ProcResult.failure err "Request failed middleware processing"),
     { st with audit := audit })

/-- The rate-limit client key built at stage 3:
`f-string of user_id, colon, ip_address`. -/
def client_key_of (raw : RawRequest) (p : AuthPayload) : String :=
  pyStr p.user_id ++ ":" ++ (raw.ip_address).getD ""

/-- The enriched request context a successful `process_request` run builds at
stage 6, as a function of the raw request, the generated correlation id, and
the authenticated token payload. -/
def enriched_context_of (raw : RawRequest) (gen_id : String) (p : AuthPayload) :
    EnrichedContext :=
  let headers := raw.headers.getD []
  let hdr_corr := dictGet headers "X-Correlation-ID"
  { correlation_id := if truthy hdr_corr then hdr_corr.getD "" else gen_id
    headers := headers
    body := raw.body.getD "\x7b\x7d"
    method := (raw.method).getD "GET"
    endpoint := (raw.endpoint).getD ""
    ip_address := (raw.ip_address).getD ""
    user_agent := (raw.user_agent).getD ""
    user_id := p.user_id
    org_id := (default_org_resolver headers).getD ""
    roles := p.roles
    locale := detect_locale headers
    timezone := detect_timezone headers
    authenticated := true }

/-- The audit entry a successful `process_request` run appends at stage 8. -/
def success_audit_of (raw : RawRequest) (now : ℤ) (gen_id : String)
    (p : AuthPayload) : AuditEntry :=
  let c := enriched_context_of raw gen_id p
  { timestamp := now
    correlation_id := some c.correlation_id
    user_id := p.user_id
    org_id := default_org_resolver (raw.headers.getD [])
    action := some (c.method ++ " " ++ c.endpoint)
    endpoint := some c.endpoint
    method := some c.method
    ip_address := some c.ip_address
    user_agent := some c.user_agent
    request_size := c.body.length
    status_code := 200 }

/-- Concrete auth service fixture: accepts exactly the token tok. -/
def tokService : String → Option AuthPayload :=
  fun t => if t == "tok" then some ⟨some "u1", ["learner"]⟩ else none

/-- Fresh processor state with the default limiter configuration
(`max_requests=100, window_seconds=3600`) from `RequestProcessor.__init__`. -/
def freshState : ProcState := ⟨⟨100, 3600, []⟩, [], []⟩

/-- Processor state whose limiter already holds 100 recent requests for the
key of user u1 at ip 1.2.3.4. -/
def limitedState : ProcState := ⟨⟨100, 3600, [("u1:1.2.3.4", 100, 50)]⟩, [], []⟩

/-- Concrete request fixture: tenant org1, valid token, idempotency key K,
body b1. -/
def reqKeyed1 : RawRequest :=
  ⟨some [("X-Tenant-ID", "org1"), ("Authorization", "Bearer tok"),
         ("Idempotency-Key", "K")],
   some "b1", some "POST", some "/items", some "1.2.3.4", some "ua"⟩

/-- Same as `reqKeyed1` but with a different body b2. -/
def reqKeyed2 : RawRequest :=
  ⟨some [("X-Tenant-ID", "org1"), ("Authorization", "Bearer tok"),
         ("Idempotency-Key", "K")],
   some "b2", some "POST", some "/items", some "1.2.3.4", some "ua"⟩

/-- Concrete request fixture with no tenant header at all. -/
def reqNoTenant : RawRequest :=
  ⟨some [("Authorization", "Bearer tok")], some "b", some "GET", some "/x",
   some "ip", some "ua"⟩

/-- Concrete request fixture with a tenant but an invalid bearer token. -/
def reqBadToken : RawRequest :=
  ⟨some [("X-Tenant-ID", "org1"), ("Authorization", "Bearer bad")],
   some "b", some "GET", some "/x", some "ip", some "ua"⟩

/-- Concrete request fixture carrying a present-but-empty Accept-Language
header. -/
def reqEmptyLang : RawRequest :=
  ⟨some [("X-Tenant-ID", "org1"), ("Authorization", "Bearer tok"),
         ("Accept-Language", "")],
   some "b", some "GET", some "/x", some "ip", some "ua"⟩

/-- Updating a dict and reading the same key back yields the new value. -/
theorem dictGet_dictSet_self {α : Type} (d : List (String × α)) (k : String)
    (v : α) : dictGet (dictSet d k v) k = some v := by
  induction d with
  | nil => simp [dictGet, dictSet]
  | cons hd tl ih =>
    by_cases hk : hd.1 == k
    · simp [dictGet, dictSet, hk]
    · simp [dictGet, dictSet, hk, ih]

/-- Admission check on a state with no entry for the key: admitted, entry
created with count 1. -/
theorem rl_fresh (m : Nat) (w : ℤ) (k : String) (now : ℤ) :
    is_rate_limited ⟨m, w, []⟩ k now = (false, ⟨m, w, [(k, 1, now)]⟩) := by
  simp [is_rate_limited, dictGet, dictSet]

/-- Admission check on a single live entry below the max: admitted, count
incremented and timestamp refreshed to now. -/
theorem rl_admit (m : Nat) (w : ℤ) (k : String) (c : Nat) (ts now : ℤ)
    (hkeep : now - w < ts) (hwin : now - ts < w) (hc : c < m) :
    is_rate_limited ⟨m, w, [(k, c, ts)]⟩ k now =
      (false, ⟨m, w, [(k, c + 1, now)]⟩) := by
  simp [is_rate_limited, dictGet, dictSet, hkeep, hwin, Nat.not_le.mpr hc]

/-- Admission check on a single live entry at or above the max: rejected,
state unchanged apart from cleanup. -/
theorem rl_reject (m : Nat) (w : ℤ) (k : String) (c : Nat) (ts now : ℤ)
    (hkeep : now - w < ts) (hwin : now - ts < w) (hc : m ≤ c) :
    is_rate_limited ⟨m, w, [(k, c, ts)]⟩ k now =
      (true, ⟨m, w, [(k, c, ts)]⟩) := by
  simp [is_rate_limited, dictGet, dictSet, hkeep, hwin, hc]

/-- Admission check once the entry's timestamp has left the window: the
cleanup drops it and the key is admitted afresh with count 1. -/
theorem rl_reset (m : Nat) (w : ℤ) (k : String) (c : Nat) (ts now : ℤ)
    (hdrop : ts ≤ now - w) :
    is_rate_limited ⟨m, w, [(k, c, ts)]⟩ k now =
      (false, ⟨m, w, [(k, 1, now)]⟩) := by
  simp [is_rate_limited, dictGet, dictSet, not_lt.mpr hdrop]

/-- Characterization of a fully successful `process_request` run: when the
tenant resolves, authentication yields a payload, the rate limiter admits,
and no idempotency-cache hit occurs, the run returns the success shape built
from `enriched_context_of` and mutates exactly the limiter, the idempotency
store (when a key is present), and the audit log (one appended entry). -/
theorem process_request_success_run (vt : String → Option AuthPayload)
    (st : ProcState) (raw : RawRequest) (now : ℤ) (g : String) (p : AuthPayload)
    (horg : truthy (default_org_resolver (raw.headers.getD [])) = true)
    (hauth : authenticate_request vt (raw.headers.getD []) = some p)
    (hrl : (is_rate_limited st.rate (client_key_of raw p) now).1 = false)
    (hcache : (if truthy (dictGet (raw.headers.getD []) "Idempotency-Key")
        then check_idempotency st.idem
          ((dictGet (raw.headers.getD []) "Idempotency-Key").getD "")
        else none) = none) :
    process_request vt st raw now g =
      (Except.ok (ProcResult.success (enriched_context_of raw g p)
          "Request processed successfully through all middleware"),
       { rate := (is_rate_limited st.rate (client_key_of raw p) now).2
         idem := if truthy (dictGet (raw.headers.getD []) "Idempotency-Key")
                 then store_result st.idem
                   ((dictGet (raw.headers.getD []) "Idempotency-Key").getD "")
                   (enriched_context_of raw g p)
                 else st.idem
         audit := st.audit ++ [success_audit_of raw now g p] }) := by
  simp only [client_key_of] at hrl
  simp only [process_request, horg, if_true, hauth, hrl, Bool.false_eq_true,
    hcache]
  simp [enriched_context_of, success_audit_of, log_request, json_dumps_len,
    client_key_of]

/-- Inversion of a successful `process_request` run: any returned success
shape carries exactly the enriched context built from the request, the
generated correlation id, and the authenticated payload. -/
theorem process_request_success_inversion (vt : String → Option AuthPayload)
    (st : ProcState) (raw : RawRequest) (now : ℤ) (g : String)
    (c : EnrichedContext) (m : String)
    (h : (process_request vt st raw now g).1 =
      Except.ok (ProcResult.success c m)) :
    ∃ p, authenticate_request vt (raw.headers.getD []) = some p ∧
      c = enriched_context_of raw g p := by
  by_cases horg : truthy (default_org_resolver (raw.headers.getD []))
  · cases hvt : authenticate_request vt (raw.headers.getD []) with
    | none => simp [process_request, horg, hvt] at h
    | some p =>
      refine ⟨p, rfl, ?_⟩
      by_cases hrl : (is_rate_limited st.rate
          (pyStr p.user_id ++ ":" ++ (raw.ip_address).getD "") now).1
      · simp [process_request, horg, hvt, hrl] at h
      · by_cases hkey : truthy (dictGet (raw.headers.getD []) "Idempotency-Key")
        · cases hchk : check_idempotency st.idem
              ((dictGet (raw.headers.getD []) "Idempotency-Key").getD "") with
          | some c2 => simp [process_request, horg, hvt, hrl, hkey, hchk] at h
          | none =>
            simp [process_request, horg, hvt, hrl, hkey, hchk] at h
            simp [enriched_context_of, ← h.1]
        · simp [process_request, horg, hvt, hrl, hkey] at h
          simp [enriched_context_of, ← h.1]
  · simp [process_request, horg] at h

/-- C1 counterexample: a request rejected by the rate limiter (the stored
count for the client key u1 colon 1.2.3.4 already equals max_requests) is
normalized with status code 400 and category middleware_error, not the 429
the claim assigns to RateLimitExceeded. -/
theorem C1_counterexample :
    (process_request tokService limitedState reqKeyed1 60 "g").1 =
      Except.ok (ProcResult.failure
        { type_name := "MiddlewareException", category := "middleware_error",
          message := "Rate limit exceeded", context := "Request Processing",
          status_code := 400 }
        "Request failed middleware processing") := by
  decide

/-- C1 amended: the normalizer's actual table maps MiddlewareException to
400, ValueError to 400, PermissionError to 403, FileNotFoundError to 404 and
anything else to 500; a pipeline run with no resolvable tenant returns the
normalized missing-tenant failure (status 400); a run rejected by the rate
limiter returns the normalized rate-limit failure with status 400, not 429;
and a run whose authentication fails returns no normalized error at all —
the failure handler raises AttributeError, which escapes uncaught, so no 401
is ever produced. -/
theorem C1_failure_status_codes :
    (∀ (m ctx : String),
       (normalize_error (PyError.middlewareException m) ctx).status_code = 400 ∧
       (normalize_error (PyError.valueError m) ctx).status_code = 400 ∧
       (normalize_error (PyError.permissionError m) ctx).status_code = 403 ∧
       (normalize_error (PyError.fileNotFoundError m) ctx).status_code = 404 ∧
       (∀ n, (normalize_error (PyError.other n m) ctx).status_code = 500)) ∧
    (∀ vt st (raw : RawRequest) (now : ℤ) g,
       truthy (default_org_resolver (raw.headers.getD [])) = false →
       (process_request vt st raw now g).1 =
         Except.ok (ProcResult.failure
           (normalize_error
             (PyError.middlewareException "Organization ID is required")
             "Request Processing")
           "Request failed middleware processing")) ∧
    (∀ vt st (raw : RawRequest) (now : ℤ) g p,
       truthy (default_org_resolver (raw.headers.getD [])) = true →
       authenticate_request vt (raw.headers.getD []) = some p →
       (is_rate_limited st.rate (client_key_of raw p) now).1 = true →
       (process_request vt st raw now g).1 =
         Except.ok (ProcResult.failure
           (normalize_error (PyError.middlewareException "Rate limit exceeded")
             "Request Processing")
           "Request failed middleware processing")) ∧
    (∀ vt st (raw : RawRequest) (now : ℤ) g,
       truthy (default_org_resolver (raw.headers.getD [])) = true →
       authenticate_request vt (raw.headers.getD []) = none →
       (process_request vt st raw now g).1 =
         Except.error "AttributeError: NoneType object has no attribute get") := by
  refine ⟨fun m ctx => ⟨rfl, rfl, rfl, rfl, fun n => rfl⟩, ?_, ?_, ?_⟩
  · intro vt st raw now g horg
    simp [process_request, horg]
  · intro vt st raw now g p horg hauth hrl
    simp only [client_key_of] at hrl
    simp [process_request, horg, hauth, hrl]
  · intro vt st raw now g horg hauth
    simp [process_request, horg, hauth]

/-- C1 witness: the amended statement instantiated on concrete runs — a
missing-tenant request, a rate-limited request, and an invalid-token
request. -/
theorem C1_witness :
    (normalize_error (PyError.middlewareException "x") "c").status_code = 400 ∧
    (process_request tokService freshState reqNoTenant 5 "g").1 =
      Except.ok (ProcResult.failure
        (normalize_error
          (PyError.middlewareException "Organization ID is required")
          "Request Processing")
        "Request failed middleware processing") ∧
    (process_request tokService limitedState reqKeyed1 60 "g").1 =
      Except.ok (ProcResult.failure
        (normalize_error (PyError.middlewareException "Rate limit exceeded")
          "Request Processing")
        "Request failed middleware processing") ∧
    (process_request tokService freshState reqBadToken 5 "g").1 =
      Except.error "AttributeError: NoneType object has no attribute get" :=
  ⟨(C1_failure_status_codes.1 "x" "c").1,
   C1_failure_status_codes.2.1 tokService freshState reqNoTenant 5 "g"
     (by decide),
   C1_failure_status_codes.2.2.1 tokService limitedState reqKeyed1 60 "g"
     ⟨some "u1", ["learner"]⟩ (by decide) (by decide) (by decide),
   C1_failure_status_codes.2.2.2 tokService freshState reqBadToken 5 "g"
     (by decide) (by decide)⟩

/-- C2 counterexample: a first keyed call succeeds and returns the full
success shape, but the replay with the same key returns the bare stored
enriched context — a different value than the first call's result, not a
byte-identical copy of it. -/
theorem C2_counterexample :
    (let r1 := process_request tokService freshState reqKeyed1 10 "g1"
     let r2 := process_request tokService r1.2 reqKeyed2 20 "g2"
     r1.1 = Except.ok (ProcResult.success
        (enriched_context_of reqKeyed1 "g1" ⟨some "u1", ["learner"]⟩)
        "Request processed successfully through all middleware") ∧
     r2.1 = Except.ok (ProcResult.rawContext
        (enriched_context_of reqKeyed1 "g1" ⟨some "u1", ["learner"]⟩)) ∧
     r2.1 ≠ r1.1) := by
  decide

/-- C2 amended: a first keyed call that runs the full pipeline stores only
the enriched context (the context field of its success result); a second
call with the same headers (any body) that passes the pre-cache stages
short-circuits and returns that bare stored context verbatim, which is
never equal to the success shape the first call returned. -/
theorem C2_replay_returns_stored_context (vt : String → Option AuthPayload)
    (st : ProcState) (raw1 raw2 : RawRequest) (t1 t2 : ℤ) (g1 g2 : String)
    (k : String) (p : AuthPayload)
    (horg : truthy (default_org_resolver (raw1.headers.getD [])) = true)
    (hauth : authenticate_request vt (raw1.headers.getD []) = some p)
    (hrl1 : (is_rate_limited st.rate (client_key_of raw1 p) t1).1 = false)
    (hkey : dictGet (raw1.headers.getD []) "Idempotency-Key" = some k)
    (hk : k ≠ "")
    (hmiss : check_idempotency st.idem k = none)
    (hheaders : raw2.headers = raw1.headers)
    (hrl2 : (is_rate_limited (process_request vt st raw1 t1 g1).2.rate
        (client_key_of raw2 p) t2).1 = false) :
    (process_request vt st raw1 t1 g1).1 =
      Except.ok (ProcResult.success (enriched_context_of raw1 g1 p)
        "Request processed successfully through all middleware") ∧
    (process_request vt (process_request vt st raw1 t1 g1).2 raw2 t2 g2).1 =
      Except.ok (ProcResult.rawContext (enriched_context_of raw1 g1 p)) ∧
    (∀ msg, (Except.ok (ProcResult.rawContext (enriched_context_of raw1 g1 p))
        : Except String ProcResult) ≠
      Except.ok (ProcResult.success (enriched_context_of raw1 g1 p) msg)) := by
  have htk : truthy (some k) = true := by simp [truthy, hk]
  have hcache : (if truthy (dictGet (raw1.headers.getD []) "Idempotency-Key")
      then check_idempotency st.idem
        ((dictGet (raw1.headers.getD []) "Idempotency-Key").getD "")
      else none) = none := by
    rw [hkey, htk]
    simpa using hmiss
  have h1 := process_request_success_run vt st raw1 t1 g1 p horg hauth hrl1
    hcache
  rw [h1] at hrl2
  simp only [client_key_of] at hrl2
  refine ⟨by rw [h1], ?_, by simp⟩
  rw [h1]
  simp [process_request, hheaders, horg, hauth, client_key_of, hrl2, hkey,
    htk, check_idempotency, store_result, dictGet_dictSet_self]

/-- C2 witness: the amended statement instantiated on two concrete keyed
calls with distinct bodies b1 and b2. -/
theorem C2_witness :
    (process_request tokService freshState reqKeyed1 10 "g1").1 =
      Except.ok (ProcResult.success
        (enriched_context_of reqKeyed1 "g1" ⟨some "u1", ["learner"]⟩)
        "Request processed successfully through all middleware") ∧
    (process_request tokService
        (process_request tokService freshState reqKeyed1 10 "g1").2
        reqKeyed2 20 "g2").1 =
      Except.ok (ProcResult.rawContext
        (enriched_context_of reqKeyed1 "g1" ⟨some "u1", ["learner"]⟩)) ∧
    (∀ msg, (Except.ok (ProcResult.rawContext
          (enriched_context_of reqKeyed1 "g1" ⟨some "u1", ["learner"]⟩))
        : Except String ProcResult) ≠
      Except.ok (ProcResult.success
        (enriched_context_of reqKeyed1 "g1" ⟨some "u1", ["learner"]⟩) msg)) :=
  C2_replay_returns_stored_context tokService freshState reqKeyed1 reqKeyed2
    10 20 "g1" "g2" "K" ⟨some "u1", ["learner"]⟩ (by decide) (by decide)
    (by decide) (by decide) (by decide) (by decide) rfl (by decide)

/-- C3 counterexample: with max_requests 3 and window 60, checks for one key
at times 0, 10, 20, 30 yield admitted, admitted, admitted, limited, but a
fifth check at time 60 — exactly window_seconds after the first request —
is still limited, because the stored timestamp was refreshed to 20 by the
third admission. -/
theorem C3_counterexample :
    (let r1 := is_rate_limited ⟨3, 60, []⟩ "c" 0
     let r2 := is_rate_limited r1.2 "c" 10
     let r3 := is_rate_limited r2.2 "c" 20
     let r4 := is_rate_limited r3.2 "c" 30
     let r5 := is_rate_limited r4.2 "c" 60
     (r1.1, r2.1, r3.1, r4.1, r5.1)) =
      (false, false, false, true, true) := by
  decide

/-- C3 amended: with max_requests 3 and window_seconds 60, four checks for a
fresh key within 60 seconds of the first yield admitted, admitted, admitted,
limited, and the limited fourth check leaves the stored count 3 and
timestamp t3 untouched; but the window resets 60 seconds after the timestamp
of the last admitted request (each admission refreshes the stored
timestamp), not after the first request's timestamp, so a fifth check at or
after t3 + 60 is admitted again with a fresh count. -/
theorem C3_sliding_window (k : String) (t1 t2 t3 t4 t5 : ℤ)
    (h12 : t1 ≤ t2) (h23 : t2 ≤ t3) (h34 : t3 ≤ t4)
    (h41 : t4 - t1 < 60) (h5 : t3 + 60 ≤ t5) :
    is_rate_limited ⟨3, 60, []⟩ k t1 = (false, ⟨3, 60, [(k, 1, t1)]⟩) ∧
    is_rate_limited ⟨3, 60, [(k, 1, t1)]⟩ k t2 =
      (false, ⟨3, 60, [(k, 2, t2)]⟩) ∧
    is_rate_limited ⟨3, 60, [(k, 2, t2)]⟩ k t3 =
      (false, ⟨3, 60, [(k, 3, t3)]⟩) ∧
    is_rate_limited ⟨3, 60, [(k, 3, t3)]⟩ k t4 =
      (true, ⟨3, 60, [(k, 3, t3)]⟩) ∧
    is_rate_limited ⟨3, 60, [(k, 3, t3)]⟩ k t5 =
      (false, ⟨3, 60, [(k, 1, t5)]⟩) := by
  refine ⟨rl_fresh 3 60 k t1,
    rl_admit 3 60 k 1 t1 t2 (by linarith) (by linarith) (by norm_num),
    rl_admit 3 60 k 2 t2 t3 (by linarith) (by linarith) (by norm_num),
    rl_reject 3 60 k 3 t3 t4 (by linarith) (by linarith) (by norm_num),
    rl_reset 3 60 k 3 t3 t5 (by linarith)⟩

/-- C3 witness: the amended statement instantiated at times 0, 10, 20, 30
and a fifth check at 80 = 20 + 60. -/
theorem C3_sliding_window_witness :
    is_rate_limited ⟨3, 60, []⟩ "c" 0 = (false, ⟨3, 60, [("c", 1, 0)]⟩) ∧
    is_rate_limited ⟨3, 60, [("c", 1, 0)]⟩ "c" 10 =
      (false, ⟨3, 60, [("c", 2, 10)]⟩) ∧
    is_rate_limited ⟨3, 60, [("c", 2, 10)]⟩ "c" 20 =
      (false, ⟨3, 60, [("c", 3, 20)]⟩) ∧
    is_rate_limited ⟨3, 60, [("c", 3, 20)]⟩ "c" 30 =
      (true, ⟨3, 60, [("c", 3, 20)]⟩) ∧
    is_rate_limited ⟨3, 60, [("c", 3, 20)]⟩ "c" 80 =
      (false, ⟨3, 60, [("c", 1, 80)]⟩) :=
  C3_sliding_window "c" 0 10 20 30 80 (by norm_num) (by norm_num)
    (by norm_num) (by norm_num) (by norm_num)

/-- C4: the claim that every non-short-circuited call appends exactly one
audit entry is the intent, but a call whose authentication fails evaluates
`auth_payload.get` on `None` inside the failure handler, so the AttributeError
escapes and zero entries are appended: the state, audit log included, comes
back unchanged from this concrete failing run. -/
theorem C4_auth_failure_appends_no_audit_entry :
    process_request tokService freshState reqBadToken 7 "g" =
      (Except.error "AttributeError: NoneType object has no attribute get",
       freshState) ∧
    freshState.audit = [] := by
  exact ⟨by decide, rfl⟩

/-- C5: a request whose headers resolve no organization — neither the
primary header nor its alias — fails with the missing-tenant failure
(normalized to status 400) for every possible auth service, and the run does
not depend on the auth service at all: authentication never executes. -/
theorem C5_missing_tenant_before_auth (st : ProcState) (raw : RawRequest)
    (now : ℤ) (g : String)
    (h1 : dictGet (raw.headers.getD []) "X-Organization-ID" = none)
    (h2 : dictGet (raw.headers.getD []) "X-Tenant-ID" = none) :
    (∀ vt, (process_request vt st raw now g).1 =
        Except.ok (ProcResult.failure
          (normalize_error
            (PyError.middlewareException "Organization ID is required")
            "Request Processing")
          "Request failed middleware processing")) ∧
    (normalize_error (PyError.middlewareException "Organization ID is required")
        "Request Processing").status_code = 400 ∧
    (∀ vt vt2, process_request vt st raw now g =
        process_request vt2 st raw now g) := by
  have horg : default_org_resolver (raw.headers.getD []) = none := by
    simp [default_org_resolver, h1, h2, truthy]
  refine ⟨?_, rfl, ?_⟩
  · intro vt
    simp [process_request, horg, truthy]
  · intro vt vt2
    simp [process_request, horg, truthy]

/-- C5 witness: the statement instantiated on a concrete request with no
tenant headers. -/
theorem C5_witness :
    ((∀ vt, (process_request vt freshState reqNoTenant 5 "g").1 =
        Except.ok (ProcResult.failure
          (normalize_error
            (PyError.middlewareException "Organization ID is required")
            "Request Processing")
          "Request failed middleware processing")) ∧
    (normalize_error (PyError.middlewareException "Organization ID is required")
        "Request Processing").status_code = 400 ∧
    (∀ vt vt2, process_request vt freshState reqNoTenant 5 "g" =
        process_request vt2 freshState reqNoTenant 5 "g")) :=
  C5_missing_tenant_before_auth freshState reqNoTenant 5 "g" (by decide)
    (by decide)

/-- C6 counterexample: an invalid-bearer-token request makes
`process_request` raise AttributeError — its result is not an Unauthenticated
failure value — and the rate limiter state stays completely empty, so the
request is not counted against any per-IP bucket. -/
theorem C6_counterexample :
    process_request tokService freshState reqBadToken 5 "g" =
      (Except.error "AttributeError: NoneType object has no attribute get",
       freshState) ∧
    (process_request tokService freshState reqBadToken 5
        "g").2.rate.request_counts = [] := by
  exact ⟨by decide, by decide⟩

/-- C6 amended: for every request whose tenant resolves but whose
authentication fails, `process_request` raises AttributeError out of the
failure handler and returns the shared state untouched: rate limiting runs
only after successful authentication (keyed by user id colon client ip), so
no rate-limit counter — per-IP or principal-keyed — is ever incremented for
such a request. -/
theorem C6_auth_failure_raises_uncounted (vt : String → Option AuthPayload)
    (st : ProcState) (raw : RawRequest) (now : ℤ) (g : String)
    (horg : truthy (default_org_resolver (raw.headers.getD [])) = true)
    (hauth : authenticate_request vt (raw.headers.getD []) = none) :
    process_request vt st raw now g =
      (Except.error "AttributeError: NoneType object has no attribute get",
       st) := by
  simp [process_request, horg, hauth]

/-- C6 witness: the amended statement instantiated on a concrete
invalid-token request. -/
theorem C6_witness :
    process_request tokService freshState reqBadToken 5 "g" =
      (Except.error "AttributeError: NoneType object has no attribute get",
       freshState) :=
  C6_auth_failure_raises_uncounted tokService freshState reqBadToken 5 "g"
    (by decide) (by decide)

/-- C7 counterexample: storing 1 then 2 under the same key and reading the
key back yields 2, not the first-written 1 — first-write-wins fails. -/
theorem C7_counterexample :
    check_idempotency
        (store_result (store_result ([] : List (String × Nat)) "k" 1) "k" 2)
        "k" ≠ some 1 := by
  decide

/-- C7 amended: `store_result` is an unconditional dict assignment, so a
second store for an existing key overwrites the first (last-write-wins) and
a subsequent check returns the second value, not the first. -/
theorem C7_second_store_overwrites {α : Type} (s : List (String × α))
    (k : String) (r1 r2 : α) :
    check_idempotency (store_result (store_result s k r1) k r2) k =
      some r2 := by
  simp [check_idempotency, store_result, dictGet_dictSet_self]

/-- C8: the error normalizer is total: every failure value yields a
`NormalizedError` with a non-empty category and a status code inside the
declared set, and an unrecognized failure type maps to category system_error
with status 500 rather than being swallowed. -/
theorem C8_error_normalizer_total :
    (∀ (e : PyError) (ctx : String),
       (normalize_error e ctx).category ≠ "" ∧
       (normalize_error e ctx).status_code ∈ [400, 401, 403, 404, 429, 500]) ∧
    (∀ (n m ctx : String),
       normalize_error (PyError.other n m) ctx =
         { type_name := n, category := "system_error", message := m,
           context := ctx, status_code := 500 }) := by
  constructor
  · intro e ctx
    cases e <;> simp [normalize_error, PyError.type_name, PyError.message]
  · intro n m ctx
    rfl

/-- C9: the audit read path never completes: every call to
`get_audit_trail`, on every log state and every filter combination, raises
AttributeError, because the `datetime` class imported by the module has no
`timedelta` attribute. -/
theorem C9_get_audit_trail_always_raises (log : List AuditEntry) (now : ℤ)
    (user_id org_id : Option String) (days_back : Int) :
    get_audit_trail log now user_id org_id days_back =
      Except.error
        "AttributeError: type object datetime has no attribute timedelta" := by
  simp [get_audit_trail, datetime_class_attrs]

/-- C10 counterexample: a successful pipeline run for a request whose
Accept-Language header is present but empty carries an empty locale — the
success result does not always have a non-empty locale. -/
theorem C10_counterexample :
    (process_request tokService freshState reqEmptyLang 5 "g").1 =
      Except.ok (ProcResult.success
        (enriched_context_of reqEmptyLang "g" ⟨some "u1", ["learner"]⟩)
        "Request processed successfully through all middleware") ∧
    (enriched_context_of reqEmptyLang "g"
        ⟨some "u1", ["learner"]⟩).locale = "" := by
  exact ⟨by decide, by decide⟩

/-- C10 amended: when the Accept-Language header is absent `detect_locale`
returns en-US and when X-Timezone is absent `detect_timezone` returns UTC; a
present header value is returned unchanged — including the empty string — and
every successful pipeline result carries exactly `detect_locale` and
`detect_timezone` of its headers, so the locale or timezone is empty exactly
when the client sent a present-but-empty header. -/
theorem C10_locale_timezone :
    (∀ h : Headers, dictGet h "Accept-Language" = none →
       detect_locale h = "en-US") ∧
    (∀ h : Headers, dictGet h "X-Timezone" = none →
       detect_timezone h = "UTC") ∧
    (∀ (h : Headers) v, dictGet h "Accept-Language" = some v →
       detect_locale h = v) ∧
    (∀ (h : Headers) v, dictGet h "X-Timezone" = some v →
       detect_timezone h = v) ∧
    (∀ vt st (raw : RawRequest) (now : ℤ) g c m,
       (process_request vt st raw now g).1 =
         Except.ok (ProcResult.success c m) →
       c.locale = detect_locale (raw.headers.getD []) ∧
       c.timezone = detect_timezone (raw.headers.getD [])) := by
  refine ⟨fun h hh => by simp [detect_locale, hh],
    fun h hh => by simp [detect_timezone, hh],
    fun h v hh => by simp [detect_locale, hh],
    fun h v hh => by simp [detect_timezone, hh], ?_⟩
  intro vt st raw now g c m h
  obtain ⟨p, -, hc⟩ :=
    process_request_success_inversion vt st raw now g c m h
  subst hc
  exact ⟨rfl, rfl⟩

/-- C10 witness: the amended statement instantiated on concrete headers and
on a concrete successful run with a present-but-empty Accept-Language. -/
theorem C10_witness :
    detect_locale [] = "en-US" ∧
    detect_timezone [] = "UTC" ∧
    detect_locale [("Accept-Language", "fr-FR")] = "fr-FR" ∧
    detect_timezone [("X-Timezone", "CET")] = "CET" ∧
    ((enriched_context_of reqEmptyLang "g" ⟨some "u1", ["learner"]⟩).locale =
       detect_locale (reqEmptyLang.headers.getD []) ∧
     (enriched_context_of reqEmptyLang "g" ⟨some "u1", ["learner"]⟩).timezone =
       detect_timezone (reqEmptyLang.headers.getD [])) :=
  ⟨C10_locale_timezone.1 [] rfl,
   C10_locale_timezone.2.1 [] rfl,
   C10_locale_timezone.2.2.1 [("Accept-Language", "fr-FR")] "fr-FR" rfl,
   C10_locale_timezone.2.2.2.1 [("X-Timezone", "CET")] "CET" rfl,
   C10_locale_timezone.2.2.2.2 tokService freshState reqEmptyLang 5 "g"
     (enriched_context_of reqEmptyLang "g" ⟨some "u1", ["learner"]⟩)
     "Request processed successfully through all middleware" (by decide)⟩

end Assiwel
